import Mathlib

/-!
Verification of the mesoscoPy measurement-orchestration layer.

This file gives a shallow embedding of the three source files
mesoscopy/experiment/double_gate_map.py, mesoscopy/instrument/lockin.py and
mesoscopy/analysis/plot.py, and proves or refutes the frozen claims about
them.  Machine reals of the source are modelled as rationals; hardware
interactions are modelled as explicit event traces; Python exceptions are
modelled with explicit error values.
-/

set_option maxRecDepth 4000

namespace Mesoscopy

/-! ## Sweep array generator (spec-modelled) -/

/-- Modelled from the spec: the function generate_1D_sweep_array lives in
mesoscopy/measurement/array.py, which is not among the provided source files;
only its caller _go_to is.  Spec section 4.1: given start, stop, step
positive, produce the ordered sequence from start to stop inclusive,
advancing by step in the direction of stop minus start; the final element
equals stop exactly even when the distance is not an integer multiple of the
step (the last interval is shortened).  Concrete scenario from spec section
8: from 0.0 to 1.0 with step 0.3 the output is 0.0, 0.3, 0.6, 0.9, 1.0.
A nonpositive step is an InvalidRangeError in the spec; it is mapped to the
empty list here and is never exercised by _go_to, which always passes 1/5.
The helper posCeil computes the integer ceiling of a positive rational, the
number of setpoints strictly before the endpoint; marchFrom x d k lists the
k points x, x + d, ..., x + (k-1)d. -/
def posCeil (q : ℚ) : ℕ :=
  (q.num.toNat + q.den - 1) / q.den

def marchFrom (x d : ℚ) : ℕ → List ℚ
  | 0 => []
  | k + 1 => x :: marchFrom (x + d) d k

def generate_1D_sweep_array (v0 v1 step : ℚ) : List ℚ :=
  if step ≤ 0 then []
  else if v0 = v1 then [v0]
  else
    let dir : ℚ := if v0 < v1 then 1 else -1
    let dist : ℚ := if v0 < v1 then v1 - v0 else v0 - v1
    marchFrom v0 (dir * step) (posCeil (dist / step)) ++ [v1]

/-! ## Position Stepper: _go_to (double_gate_map.py lines 61 to 75) -/

/-- Hardware interaction events of the Position Stepper: a timed wait, a
write of a setpoint to channel.volt, and a read of channel.curr returning the
given value. -/
inductive SEvent where
  | sleep (t : ℚ)
  | write (v : ℚ)
  | readCurr (r : ℚ)
deriving DecidableEq, Repr

/-- The three events of one loop iteration up to the guard: channel.volt(v),
channel.curr(), time.sleep(0.1).  The observable is modelled as a stream
curr of readings indexed by how many channel.curr() calls happened so far. -/
def step3 (curr : ℕ → ℚ) (n : ℕ) (v : ℚ) : List SEvent :=
  [SEvent.write v, SEvent.readCurr (curr n), SEvent.sleep (1/10)]

/-- One loop iteration including the second channel.curr() call made by the
guard when the threshold is truthy. -/
def step4 (curr : ℕ → ℚ) (n : ℕ) (v : ℚ) : List SEvent :=
  [SEvent.write v, SEvent.readCurr (curr n), SEvent.sleep (1/10),
   SEvent.readCurr (curr (n + 1))]

/-- The loop body of _go_to.  Python source, lines 68 to 73:
for v in tqdm(array, ...) followed by channel.volt(v); channel.curr();
time.sleep(0.1); if threshold and channel.curr() bigger than threshold then
break.  Python truthiness makes the guard skip the comparison (and the second
read) when threshold is None or 0.0.  Arguments: the reading stream, the
threshold, the remaining array, the number of curr reads made so far, and
the last value written (the Python loop variable v). -/
def go_to_loop (curr : ℕ → ℚ) (th : Option ℚ) :
    List ℚ → ℕ → ℚ → List SEvent × ℚ
  | [], _, last => ([], last)
  | v :: rest, n, _ =>
    match th with
    | none =>
      let r := go_to_loop curr none rest (n + 1) v
      (step3 curr n v ++ r.1, r.2)
    | some t =>
      if t = 0 then
        let r := go_to_loop curr (some t) rest (n + 1) v
        (step3 curr n v ++ r.1, r.2)
      else if t < curr (n + 1) then
        (step4 curr n v, v)
      else
        let r := go_to_loop curr (some t) rest (n + 2) v
        (step4 curr n v ++ r.1, r.2)

/-- _go_to (double_gate_map.py lines 61 to 75): generate the sweep array with
step 2e-1, sleep 0.5, run the loop, sleep 0.5, return the loop variable v.
The accumulator is seeded with v0; since the generated array is never empty
the seed is never returned (in Python, v is simply the last iterated
element).  Returns the event trace and the returned value. -/
def go_to (v0 v1 : ℚ) (curr : ℕ → ℚ) (threshold : Option ℚ) :
    List SEvent × ℚ :=
  let array := generate_1D_sweep_array v0 v1 (1/5)
  let r := go_to_loop curr threshold array 0 v0
  (SEvent.sleep (1/2) :: r.1 ++ [SEvent.sleep (1/2)], r.2)

/-- The setpoints written to the Controllable Quantity, in order, extracted
from an event trace. -/
def writesOf : List SEvent → List ℚ
  | [] => []
  | SEvent.write v :: es => v :: writesOf es
  | SEvent.sleep _ :: es => writesOf es
  | SEvent.readCurr _ :: es => writesOf es

/-- Trace shape of the loop when the guard never runs its comparison
(threshold None or 0.0): three events per setpoint. -/
def blocks3 (curr : ℕ → ℚ) : ℕ → List ℚ → List SEvent
  | _, [] => []
  | n, v :: rest => step3 curr n v ++ blocks3 curr (n + 1) rest

/-- Trace shape of the loop when the threshold is truthy: four events per
setpoint, the fourth being the guard read. -/
def blocks4 (curr : ℕ → ℚ) : ℕ → List ℚ → List SEvent
  | _, [] => []
  | n, v :: rest => step4 curr n v ++ blocks4 curr (n + 2) rest

/-- Index of the first setpoint at which the guard comparison trips, given
the reading stream offset n at entry; equals the length of the array when it
never trips.  Step i of the loop consumes reads n + 2i and n + 2i + 1, the
guard comparing the latter. -/
def firstAbortFrom (curr : ℕ → ℚ) (t : ℚ) : ℕ → List ℚ → ℕ
  | _, [] => 0
  | n, _ :: rest =>
    if t < curr (n + 1) then 0 else firstAbortFrom curr t (n + 2) rest + 1

/-- The event sequence asserted by claim C5, built from the words of the
claim: a settle delay, then for each setpoint in order a write, one read of
the safety observable, the inter-step delay and the threshold check (the
check being, per spec section 4.2, a comparison of the magnitude of the read
value against a configured threshold, aborting the remaining steps), and a
final settle delay.  One read per setpoint: the check is not itself a
hardware interaction here. -/
def c5_claimed_blocks (curr : ℕ → ℚ) (th : Option ℚ) :
    ℕ → List ℚ → List SEvent
  | _, [] => []
  | n, v :: rest =>
    step3 curr n v ++
      match th with
      | none => c5_claimed_blocks curr none (n + 1) rest
      | some t =>
        if t < |curr n| then [] else c5_claimed_blocks curr (some t) (n + 1) rest

def c5_claimed_trace (v0 v1 : ℚ) (curr : ℕ → ℚ) (th : Option ℚ) :
    List SEvent :=
  SEvent.sleep (1/2) ::
    c5_claimed_blocks curr th 0 (generate_1D_sweep_array v0 v1 (1/5)) ++
    [SEvent.sleep (1/2)]

/-- The amended claim C5 event sequence: as claimed, except that whenever the
threshold is truthy (neither None nor 0.0) the guard performs a second read
of the safety observable after the inter-step delay, and that second reading
is the one compared against the threshold. -/
def c5_amended_trace (v0 v1 : ℚ) (curr : ℕ → ℚ) (th : Option ℚ) :
    List SEvent :=
  let arr := generate_1D_sweep_array v0 v1 (1/5)
  let body : List SEvent :=
    match th with
    | none => blocks3 curr 0 arr
    | some t =>
      if t = 0 then blocks3 curr 0 arr
      else blocks4 curr 0 (arr.take (firstAbortFrom curr t 0 arr + 1))
  SEvent.sleep (1/2) :: body ++ [SEvent.sleep (1/2)]

/-! ### Concrete observable streams used in witnesses and counterexamples -/

/-- An observable that always reads 0. -/
def constZero : ℕ → ℚ := fun _ => 0

/-- An observable that always reads minus 2: its magnitude is 2 but its
signed value is negative. -/
def constNegTwo : ℕ → ℚ := fun _ => -2

/-- The spec section 8 scenario observable: it reads 2.0 from the moment the
stepper has written the setpoint 1.0 (the sixth setpoint, so from the
eleventh channel.curr() call onward, reads being consumed two per step) and
0 before that. -/
def scenarioCurr : ℕ → ℚ := fun n => if 10 ≤ n then 2 else 0

/-! ## Station components and lock-in discovery
(double_gate_map.py lines 93 to 97, lockin.py lines 14 to 18) -/

/-- Concrete Python classes relevant to discovery.  mfli is the class
zhinst.qcodes.mfli.MFLI exactly; mfliSubclass stands for any proper subclass
of it; the remaining constructors are the other driver classes a station can
hold. -/
inductive PyClass where
  | mfli
  | mfliSubclass
  | keithley2600
  | triton
  | otherInstrument
deriving DecidableEq, Repr

/-- A station component: an Instrument instance of some class, a bare
Parameter (such as the current_range parameter added by station_triton,
which is not an Instrument), or any other component. -/
inductive Component where
  | instrument (cls : PyClass)
  | parameter
  | other
deriving DecidableEq, Repr

/-- The test isinstance(itm, Instrument) and itm.__class__ ==
zhinst.qcodes.mfli.MFLI of the discovery loops.  Exact class equality: an
instance of a proper subclass of MFLI fails the equality even though it
passes the isinstance check. -/
def is_lockin : Component → Bool
  | Component.instrument PyClass.mfli => true
  | _ => false

/-- The discovery loop shared verbatim by gate_map (double_gate_map.py lines
93 to 97) and initialise_lockin (lockin.py lines 14 to 18): iterate over
station.components in order and collect the names of components that are
Instrument instances whose class is exactly MFLI. -/
def discover_lockins (components : List (String × Component)) : List String :=
  (components.filter (fun p => is_lockin p.2)).map Prod.fst

/-! ## gate_map (double_gate_map.py lines 78 to 126) -/

/-- The observables handed to sweep2d: the demods[0].sample node of a named
lock-in, and the four fixed observables triton.T8, triton.Bz,
keithley.smua.curr and keithley.smub.curr. -/
inductive Observable where
  | demodSample (lockin : String)
  | tritonT8
  | tritonBz
  | smuaCurr
  | smubCurr
deriving DecidableEq, Repr

/-- The argument record of the sweep2d call at double_gate_map.py lines 107
to 124, in source order: smua.volt with xarray and inner_delay, smub.volt
with yarray and outer_delay, the observable tuple, exp, measurement_name,
use_threads, measure_retrace.  Experiments are abstract and modelled by an
optional numeric identifier. -/
structure Sweep2dArgs where
  param1 : String
  array1 : List ℚ
  delay1 : ℚ
  param2 : String
  array2 : List ℚ
  delay2 : ℚ
  observables : List Observable
  exp : Option ℕ
  measurement_name : String
  use_threads : Bool
  measure_retrace : Bool
deriving DecidableEq, Repr

/-- Python str(label) for an Optional[str]: None prints as None inside the
f-string gate map plus label. -/
def labelToStr : Option String → String
  | none => "None"
  | some s => s

/-- Effects of one gate_map call, in order: the initialise_keithley call,
the two initial smua.volt() and smub.volt() reads, each _go_to invocation
of the Position Stepper (with its start value, target, tqdm description and
threshold argument), and the sweep2d call. -/
inductive GMEvent where
  | initialiseKeithley
  | readVolt (channel : String) (value : ℚ)
  | positionStep (channel : String) (v0 v1 : ℚ) (desc : String)
      (threshold : Option ℚ)
  | callSweep2d (args : Sweep2dArgs)
deriving DecidableEq, Repr

/-- The Sweep2dArgs record gate_map builds (double_gate_map.py lines 107 to
124). -/
def gate_map_sweep_args (xarray : List ℚ) (inner_delay : ℚ) (yarray : List ℚ)
    (outer_delay : ℚ) (components : List (String × Component))
    (exp : Option ℕ) (label : Option String) (measure_retrace : Bool) :
    Sweep2dArgs :=
  ⟨"keithley.smua.volt", xarray, inner_delay,
   "keithley.smub.volt", yarray, outer_delay,
   (discover_lockins components).map Observable.demodSample ++
     [Observable.tritonT8, Observable.tritonBz,
      Observable.smuaCurr, Observable.smubCurr],
   exp, "gate map " ++ labelToStr label, true, measure_retrace⟩

/-- gate_map (double_gate_map.py lines 78 to 126).  The station is
represented by its component listing together with the two values its
source-measure channels report for the initial volt() reads; sweep2d,
which lives in mesoscopy/measurement/sweep.py outside the provided sources,
is an abstract collaborator returning the dataset handle.  The function
returns the event trace and the returned handle; the handle is none when
indexing xarray[0] or yarray[0] raises on an empty array, in which case the
trace retains the events already performed. -/
def gate_map {H : Type} (sweep2dFn : Sweep2dArgs → H)
    (xarray : List ℚ) (inner_delay : ℚ) (yarray : List ℚ) (outer_delay : ℚ)
    (components : List (String × Component)) (init_tg init_bg : ℚ)
    (exp : Option ℕ) (label : Option String) (measure_retrace : Bool) :
    List GMEvent × Option H :=
  let pre : List GMEvent :=
    [GMEvent.initialiseKeithley,
     GMEvent.readVolt "keithley.smua" init_tg,
     GMEvent.readVolt "keithley.smub" init_bg]
  match xarray, yarray with
  | [], _ => (pre, none)
  | x0 :: _, [] =>
    (pre ++ [GMEvent.positionStep "keithley.smua" init_tg x0
      ("sweeping top gate to " ++ toString init_tg ++ " V") none], none)
  | x0 :: _, y0 :: _ =>
    let args := gate_map_sweep_args xarray inner_delay yarray outer_delay
      components exp label measure_retrace
    (pre ++
      [GMEvent.positionStep "keithley.smua" init_tg x0
        ("sweeping top gate to " ++ toString init_tg ++ " V") none,
       GMEvent.positionStep "keithley.smub" init_bg y0
        ("sweeping back gate to " ++ toString init_bg ++ " V") none,
       GMEvent.callSweep2d args],
     some (sweep2dFn args))

/-! ## initialise_lockin (lockin.py lines 11 to 61) -/

/-- Values written by initialise_lockin to lock-in nodes; the output
amplitude 2 to the power one half is kept symbolic. -/
inductive LIValue where
  | rat (q : ℚ)
  | sqrtTwo
deriving DecidableEq, Repr

/-- One node write on a named lock-in. -/
structure LIAction where
  target : String
  node : String
  value : LIValue
deriving DecidableEq, Repr

/-- Python exceptions the embedded fragments can raise. -/
inductive PyExc where
  | indexError
  | valueError
deriving DecidableEq, Repr

/-- lockin.py lines 20 to 30: configuration of the reference lock-in
lockins[0]. -/
def mainLockinActions (l0 : String) (freq : ℚ) : List LIAction :=
  [⟨l0, "oscs0.freq", LIValue.rat freq⟩,
   ⟨l0, "sigouts0.on", LIValue.rat 1⟩,
   ⟨l0, "sigouts0.range", LIValue.rat 10⟩,
   ⟨l0, "sigouts0.amplitudes0", LIValue.sqrtTwo⟩,
   ⟨l0, "sigouts0.enables0", LIValue.rat 1⟩,
   ⟨l0, "sigouts0.enables1", LIValue.rat 0⟩,
   ⟨l0, "sigouts0.imp50", LIValue.rat 0⟩,
   ⟨l0, "sigouts0.offset", LIValue.rat 0⟩,
   ⟨l0, "sigouts0.diff", LIValue.rat 0⟩,
   ⟨l0, "triggers.out0.source", LIValue.rat 52⟩,
   ⟨l0, "triggers.out1.source", LIValue.rat 1⟩]

/-- lockin.py lines 32 to 37: synchronisation of every further lock-in. -/
def syncLockinActions (l : String) : List LIAction :=
  [⟨l, "demods1.adcselect", LIValue.rat 3⟩,
   ⟨l, "extrefs0.enable", LIValue.rat 1⟩,
   ⟨l, "sigouts0.on", LIValue.rat 0⟩,
   ⟨l, "triggers.out0.source", LIValue.rat 0⟩,
   ⟨l, "triggers.out1.source", LIValue.rat 0⟩]

/-- lockin.py lines 39 to 54: common demodulator and input configuration of
every lock-in. -/
def commonLockinActions (l : String) : List LIAction :=
  [⟨l, "demods0.oscselect", LIValue.rat 0⟩,
   ⟨l, "demods0.harmonic", LIValue.rat 1⟩,
   ⟨l, "demods0.phaseshift", LIValue.rat 0⟩,
   ⟨l, "demods0.sinc", LIValue.rat 1⟩,
   ⟨l, "demods0.timeconstant", LIValue.rat (1/10)⟩,
   ⟨l, "demods0.order", LIValue.rat 8⟩,
   ⟨l, "sigins0.ac", LIValue.rat 1⟩,
   ⟨l, "sigins0.imp50", LIValue.rat 0⟩,
   ⟨l, "sigins0.diff", LIValue.rat 1⟩,
   ⟨l, "sigins0.float", LIValue.rat 0⟩,
   ⟨l, "sigins0.scaling", LIValue.rat 1⟩,
   ⟨l, "sigins0.range", LIValue.rat (3/1000)⟩,
   ⟨l, "sigouts0.range", LIValue.rat 10⟩]

/-- initialise_lockin (lockin.py lines 11 to 61): discover the lock-ins,
then configure lockins[0] as the reference source, synchronise the others,
and apply the common configuration to all.  When the discovered list is
empty the very first statement, indexing lockins[0] at line 20, raises an
IndexError before any hardware node is touched: the action trace is then
empty and the exception is reported. -/
def initialise_lockin (components : List (String × Component)) (freq : ℚ) :
    List LIAction × Option PyExc :=
  match discover_lockins components with
  | [] => ([], some PyExc.indexError)
  | l0 :: rest =>
    (mainLockinActions l0 freq ++
      rest.flatMap syncLockinActions ++
      (l0 :: rest).flatMap commonLockinActions, none)

/-! ## plot_dataset_1D and plot_dataset_2D (plot.py lines 33 to 247) -/

/-- Python list indexing: returns the element or raises IndexError.  It
never raises ValueError. -/
def pyListGet {α : Type} (l : List α) (i : ℕ) : Except PyExc α :=
  match l.get? i with
  | some a => Except.ok a
  | none => Except.error PyExc.indexError

/-- The fragment at plot.py lines 104 to 107 and 210 to 213: inside a try
block rebind dataset to a one-element list holding dataset[1]; a handler for
ValueError prints that the dataset had no imaginary part and keeps the old
dataset.  The Boolean records whether the handler body (the print) ran; any
exception other than ValueError propagates. -/
def imagPhaseSelect {α : Type} (dataset : List α) :
    Except PyExc (List α) × Bool :=
  match pyListGet dataset 1 with
  | Except.ok d => (Except.ok [d], false)
  | Except.error e =>
    if e = PyExc.valueError then (Except.ok dataset, true)
    else (Except.error e, false)

/-- Component selection of both plot functions (plot.py lines 101 to 107 and
207 to 213): real or mag keep dataset[0]; imag or phase attempt dataset[1]
under the ValueError handler; other plot types keep the parsed dataset. -/
def componentSelect {α : Type} (cpt : String) (parsed : List α) :
    Except PyExc (List α) × Bool :=
  if cpt = "real" ∨ cpt = "mag" then
    match pyListGet parsed 0 with
    | Except.ok d => (Except.ok [d], false)
    | Except.error e => (Except.error e, false)
  else if cpt = "imag" ∨ cpt = "phase" then imagPhaseSelect parsed
  else (Except.ok parsed, false)

def valid_plot_types : List String :=
  ["real_and_imag", "mag_and_phase", "real", "imag", "mag", "phase"]

def valid_plot_phases : List String := ["radians", "degrees"]

/-- What a plot function hands back to its caller: the Python None value, or
the pair of the axes list (abstracted to the number of subplots it was
created for) and the colorbars list. -/
inductive PlotResult where
  | pyNone
  | handles (nplots : ℕ) (colorbars : List (Option Unit))
deriving DecidableEq, Repr

/-- plot_dataset_1D (plot.py lines 33 to 134), skeleton relevant to the
claims.  The dataset loading and complex-to-real preparsing are external
collaborators; parsed is the list those return.  The function validates the
two plot-type strings (raising ValueError), evaluates dataset[0] for the x
axis name at line 99 (raising IndexError on an empty parsed list), runs the
component selection, plots, and falls off the end without a return
statement, hence gives back Python None.  The Boolean records whether the
no-imaginary-part message was printed. -/
def plotCore1D {α : Type} (cpt : String) (parsed : List α) :
    Except PyExc PlotResult × Bool :=
  match pyListGet parsed 0 with
  | Except.error e => (Except.error e, false)
  | Except.ok _ =>
    match componentSelect cpt parsed with
    | (Except.error e, pr) => (Except.error e, pr)
    | (Except.ok _, pr) => (Except.ok PlotResult.pyNone, pr)

def plot_dataset_1D {α : Type} (cpt cpp : String) (parsed : List α) :
    Except PyExc PlotResult × Bool :=
  if cpt ∉ valid_plot_types then (Except.error PyExc.valueError, false)
  else if cpp ∉ valid_plot_phases then (Except.error PyExc.valueError, false)
  else plotCore1D cpt parsed

/-- plot_dataset_2D (plot.py lines 137 to 247), same skeleton; it ends with
return axeslist, colorbars, where axeslist comes from plt.subplots(nplots)
and colorbars is the list built as None repeated nplots times at line 222
(the loop rebinds its local colorbar variable, not the list entries). -/
def plotCore2D {α : Type} (cpt : String) (parsed : List α) :
    Except PyExc PlotResult × Bool :=
  match pyListGet parsed 0 with
  | Except.error e => (Except.error e, false)
  | Except.ok _ =>
    match componentSelect cpt parsed with
    | (Except.error e, pr) => (Except.error e, pr)
    | (Except.ok ds, pr) =>
      (Except.ok (PlotResult.handles ds.length
        (List.replicate ds.length none)), pr)

def plot_dataset_2D {α : Type} (cpt cpp : String) (parsed : List α) :
    Except PyExc PlotResult × Bool :=
  if cpt ∉ valid_plot_types then (Except.error PyExc.valueError, false)
  else if cpp ∉ valid_plot_phases then (Except.error PyExc.valueError, false)
  else plotCore2D cpt parsed

/-! ### Concrete stations and datasets for witnesses -/

/-- A station holding a Keithley, a Triton and the current_range Parameter
but no lock-in at all. -/
def compsNoLockin : List (String × Component) :=
  [("keithley", Component.instrument PyClass.keithley2600),
   ("triton", Component.instrument PyClass.triton),
   ("current_range", Component.parameter)]

/-- A station holding an instrument of a proper subclass of MFLI, the
current_range Parameter, a Keithley and one exact MFLI instrument. -/
def compsMixed : List (String × Component) :=
  [("mf1", Component.instrument PyClass.mfliSubclass),
   ("current_range", Component.parameter),
   ("keithley", Component.instrument PyClass.keithley2600),
   ("mf2", Component.instrument PyClass.mfli)]

end Mesoscopy

namespace Mesoscopy

/-! ## General lemmas about the embedded definitions -/

example : generate_1D_sweep_array 0 1 (3/10) = [0, 3/10, 3/5, 9/10, 1] := by
  norm_num [generate_1D_sweep_array, posCeil, marchFrom]

example : generate_1D_sweep_array 0 2 (1/5) =
    [0, 1/5, 2/5, 3/5, 4/5, 1, 6/5, 7/5, 8/5, 9/5, 2] := by
  norm_num [generate_1D_sweep_array, posCeil, marchFrom]

lemma generate_ne_nil (v0 v1 step : ℚ) (hstep : 0 < step) :
    generate_1D_sweep_array v0 v1 step ≠ [] := by
  unfold generate_1D_sweep_array
  rw [if_neg (not_le.mpr hstep)]
  split
  · exact List.cons_ne_nil _ _
  · simp

lemma generate_getLastD (v0 v1 step d : ℚ) (hstep : 0 < step) :
    (generate_1D_sweep_array v0 v1 step).getLastD d = v1 := by
  unfold generate_1D_sweep_array
  rw [if_neg (not_le.mpr hstep)]
  split
  next h => subst h; simp
  next h =>
    show (marchFrom _ _ _ ++ [v1]).getLastD d = v1
    exact List.getLastD_concat _ _ _

lemma getLastD_mem {α : Type} (l : List α) (d : α) (h : l ≠ []) :
    l.getLastD d ∈ l := by
  cases l with
  | nil => exact absurd rfl h
  | cons v rest =>
    rw [List.getLastD_cons]
    exact List.getLastD_mem_cons rest v

lemma take_succ_ne_nil {α : Type} (l : List α) (k : ℕ) (h : l ≠ []) :
    l.take (k + 1) ≠ [] := by
  cases l with
  | nil => exact absurd rfl h
  | cons v rest => simp [List.take]

lemma writesOf_append (a b : List SEvent) :
    writesOf (a ++ b) = writesOf a ++ writesOf b := by
  induction a with
  | nil => rfl
  | cons e es ih => cases e <;> simp [writesOf, ih]

lemma writesOf_step3 (curr : ℕ → ℚ) (n : ℕ) (v : ℚ) :
    writesOf (step3 curr n v) = [v] := rfl

lemma writesOf_step4 (curr : ℕ → ℚ) (n : ℕ) (v : ℚ) :
    writesOf (step4 curr n v) = [v] := rfl

lemma writesOf_blocks3 (curr : ℕ → ℚ) :
    ∀ (arr : List ℚ) (n : ℕ), writesOf (blocks3 curr n arr) = arr := by
  intro arr
  induction arr with
  | nil => intro n; rfl
  | cons v rest ih =>
    intro n
    simp [blocks3, writesOf_append, writesOf_step3, ih]

lemma writesOf_blocks4 (curr : ℕ → ℚ) :
    ∀ (arr : List ℚ) (n : ℕ), writesOf (blocks4 curr n arr) = arr := by
  intro arr
  induction arr with
  | nil => intro n; rfl
  | cons v rest ih =>
    intro n
    simp [blocks4, writesOf_append, writesOf_step4, ih]

/-- The loop of _go_to with a falsy threshold (None or 0.0, both falsy in
Python) never evaluates the comparison: it performs exactly three events per
setpoint and finishes the whole array, returning the last element. -/
lemma go_to_loop_falsy (curr : ℕ → ℚ) (th : Option ℚ)
    (hth : th = none ∨ th = some 0) :
    ∀ (arr : List ℚ) (n : ℕ) (last : ℚ),
      go_to_loop curr th arr n last = (blocks3 curr n arr, arr.getLastD last) := by
  intro arr
  induction arr with
  | nil =>
    intro n last
    cases hth with
    | inl h => subst h; rfl
    | inr h => subst h; rfl
  | cons v rest ih =>
    intro n last
    cases hth with
    | inl h =>
      subst h
      simp only [go_to_loop, ih, blocks3, List.getLastD_cons]
    | inr h =>
      subst h
      simp [go_to_loop, ih, blocks3]
      simp only [← List.getLastD_eq_getLast?]
      rw [List.getLastD_cons]

/-- The loop of _go_to with a truthy threshold performs four events per
setpoint (the fourth being the guard read) up to and including the first
setpoint whose guard read exceeds the threshold, and returns the last
setpoint written. -/
lemma go_to_loop_truthy (curr : ℕ → ℚ) (t : ℚ) (ht : t ≠ 0) :
    ∀ (arr : List ℚ) (n : ℕ) (last : ℚ),
      go_to_loop curr (some t) arr n last =
        (blocks4 curr n (arr.take (firstAbortFrom curr t n arr + 1)),
         (arr.take (firstAbortFrom curr t n arr + 1)).getLastD last) := by
  intro arr
  induction arr with
  | nil => intro n last; simp [go_to_loop, firstAbortFrom, blocks4]
  | cons v rest ih =>
    intro n last
    by_cases habort : t < curr (n + 1)
    · simp only [go_to_loop, if_neg ht, if_pos habort, firstAbortFrom,
        List.take, blocks4, List.getLastD_cons, List.getLastD_nil,
        List.append_nil]
    · simp only [go_to_loop, if_neg ht, if_neg habort, firstAbortFrom,
        List.take, blocks4, List.getLastD_cons, ih]

/-- The first guard trip is where the claims say it is: if the guard reads
at offsets n + 2j + 1 stay at or below the threshold for all j before i and
the read at n + 2i + 1 exceeds it, the abort index is i. -/
lemma firstAbortFrom_eq (curr : ℕ → ℚ) (t : ℚ) :
    ∀ (arr : List ℚ) (n i : ℕ), i < arr.length →
      (∀ j, j < i → ¬ t < curr (n + 2 * j + 1)) →
      t < curr (n + 2 * i + 1) →
      firstAbortFrom curr t n arr = i := by
  intro arr
  induction arr with
  | nil => intro n i hi _ _; exact absurd hi (Nat.not_lt_zero i)
  | cons v rest ih =>
    intro n i hi hbefore habort
    cases i with
    | zero =>
      have h1 : t < curr (n + 1) := by simpa using habort
      simp [firstAbortFrom, if_pos h1]
    | succ i =>
      have hlen : i < rest.length := by
        simp only [List.length_cons] at hi
        omega
      have h0 : ¬ t < curr (n + 1) := by
        simpa using hbefore 0 (Nat.succ_pos i)
      have hb : ∀ j, j < i → ¬ t < curr (n + 2 + 2 * j + 1) := by
        intro j hj
        have h := hbefore (j + 1) (Nat.succ_lt_succ hj)
        have e : n + 2 * (j + 1) + 1 = n + 2 + 2 * j + 1 := by ring
        rwa [e] at h
      have ha : t < curr (n + 2 + 2 * i + 1) := by
        have e : n + 2 * (i + 1) + 1 = n + 2 + 2 * i + 1 := by ring
        rwa [e] at habort
      have hrest := ih (n + 2) i hlen hb ha
      simp [firstAbortFrom, if_neg h0, hrest]

lemma writesOf_wrap (body : List SEvent) :
    writesOf (SEvent.sleep (1/2) :: body ++ [SEvent.sleep (1/2)]) =
      writesOf body := by
  simp [writesOf, writesOf_append]

lemma go_to_falsy (v0 v1 : ℚ) (curr : ℕ → ℚ) (th : Option ℚ)
    (hth : th = none ∨ th = some 0) :
    go_to v0 v1 curr th =
      (SEvent.sleep (1/2) ::
        blocks3 curr 0 (generate_1D_sweep_array v0 v1 (1/5)) ++
        [SEvent.sleep (1/2)],
       (generate_1D_sweep_array v0 v1 (1/5)).getLastD v0) := by
  simp only [go_to]
  rw [go_to_loop_falsy curr th hth]

lemma go_to_truthy (v0 v1 t : ℚ) (curr : ℕ → ℚ) (ht : t ≠ 0) :
    go_to v0 v1 curr (some t) =
      (SEvent.sleep (1/2) ::
        blocks4 curr 0 ((generate_1D_sweep_array v0 v1 (1/5)).take
          (firstAbortFrom curr t 0 (generate_1D_sweep_array v0 v1 (1/5)) + 1)) ++
        [SEvent.sleep (1/2)],
       ((generate_1D_sweep_array v0 v1 (1/5)).take
          (firstAbortFrom curr t 0 (generate_1D_sweep_array v0 v1 (1/5)) + 1)).getLastD v0) := by
  simp only [go_to]
  rw [go_to_loop_truthy curr t ht]

lemma go_to_writes_falsy (v0 v1 : ℚ) (curr : ℕ → ℚ) (th : Option ℚ)
    (hth : th = none ∨ th = some 0) :
    writesOf (go_to v0 v1 curr th).1 = generate_1D_sweep_array v0 v1 (1/5) := by
  rw [go_to_falsy v0 v1 curr th hth]
  simp only [writesOf_wrap, writesOf_blocks3]

lemma go_to_ret_falsy (v0 v1 : ℚ) (curr : ℕ → ℚ) (th : Option ℚ)
    (hth : th = none ∨ th = some 0) :
    (go_to v0 v1 curr th).2 =
      (generate_1D_sweep_array v0 v1 (1/5)).getLastD v0 := by
  rw [go_to_falsy v0 v1 curr th hth]

lemma go_to_writes_truthy (v0 v1 t : ℚ) (curr : ℕ → ℚ) (ht : t ≠ 0) :
    writesOf (go_to v0 v1 curr (some t)).1 =
      (generate_1D_sweep_array v0 v1 (1/5)).take
        (firstAbortFrom curr t 0 (generate_1D_sweep_array v0 v1 (1/5)) + 1) := by
  rw [go_to_truthy v0 v1 t curr ht]
  simp only [writesOf_wrap, writesOf_blocks4]

lemma go_to_ret_truthy (v0 v1 t : ℚ) (curr : ℕ → ℚ) (ht : t ≠ 0) :
    (go_to v0 v1 curr (some t)).2 =
      ((generate_1D_sweep_array v0 v1 (1/5)).take
        (firstAbortFrom curr t 0 (generate_1D_sweep_array v0 v1 (1/5)) + 1)).getLastD v0 := by
  rw [go_to_truthy v0 v1 t curr ht]

lemma is_lockin_true_iff (c : Component) :
    is_lockin c = true ↔ c = Component.instrument PyClass.mfli := by
  cases c with
  | instrument cls => cases cls <;> simp [is_lockin]
  | parameter => simp [is_lockin]
  | other => simp [is_lockin]

lemma key_unique {α β : Type} :
    ∀ {l : List (α × β)}, (l.map Prod.fst).Nodup →
      ∀ {a : α} {b b2 : β}, (a, b) ∈ l → (a, b2) ∈ l → b = b2 := by
  intro l
  induction l with
  | nil => intro _ a b b2 h _; simp at h
  | cons p rest ih =>
    intro hnd a b b2 h1 h2
    simp only [List.map_cons, List.nodup_cons] at hnd
    rcases List.mem_cons.mp h1 with e1 | m1
    · rcases List.mem_cons.mp h2 with e2 | m2
      · rw [← e1] at e2
        exact ((Prod.mk.injEq _ _ _ _).mp e2).2.symm
      · exfalso
        apply hnd.1
        rw [← e1]
        exact List.mem_map.mpr ⟨(a, b2), m2, rfl⟩
    · rcases List.mem_cons.mp h2 with e2 | m2
      · exfalso
        apply hnd.1
        rw [← e2]
        exact List.mem_map.mpr ⟨(a, b), m1, rfl⟩
      · exact ih hnd.2 m1 m2

/-! ## Claim theorems -/

/-- Claim C1, counterexample.  The claim says the stepper stops as soon as
the magnitude of the monitored observable exceeds the configured threshold.
The code compares the signed reading, not its magnitude: with threshold 1.5
and an observable constantly reading minus 2 (magnitude 2, above the
threshold at the very first setpoint), the stepper nevertheless writes the
whole generated array 0, 0.2, 0.4 and aborts nothing. -/
theorem claim_c1_counterexample :
    (3/2 : ℚ) ≠ 0 ∧
    (3/2 : ℚ) < |constNegTwo 1| ∧
    writesOf (go_to 0 (2/5) constNegTwo (some (3/2))).1 = [0, 1/5, 2/5] := by
  refine ⟨by norm_num, by norm_num [constNegTwo], ?_⟩
  rw [go_to_writes_truthy 0 (2/5) (3/2) constNegTwo (by norm_num)]
  norm_num [generate_1D_sweep_array, posCeil, marchFrom, firstAbortFrom,
    constNegTwo]

/-- Claim C1, amended: for a Position Stepper invocation whose configured
threshold is truthy (nonzero), if the signed value returned by the guard
read of the safety observable first exceeds the threshold at setpoint index
i, then the stepper writes exactly the first i + 1 setpoints of the
generated array, raises no exception, and returns the last setpoint it
applied.  Guard reads sit at stream offsets 2 j + 1, the loop reading the
observable twice per setpoint. -/
theorem claim_c1_amended (v0 v1 t : ℚ) (curr : ℕ → ℚ) (i : ℕ)
    (ht : t ≠ 0)
    (hi : i < (generate_1D_sweep_array v0 v1 (1/5)).length)
    (hbefore : ∀ j, j < i → ¬ t < curr (2 * j + 1))
    (habort : t < curr (2 * i + 1)) :
    writesOf (go_to v0 v1 curr (some t)).1 =
      (generate_1D_sweep_array v0 v1 (1/5)).take (i + 1) ∧
    (go_to v0 v1 curr (some t)).2 =
      ((generate_1D_sweep_array v0 v1 (1/5)).take (i + 1)).getLastD v0 := by
  have hfa : firstAbortFrom curr t 0 (generate_1D_sweep_array v0 v1 (1/5)) = i := by
    apply firstAbortFrom_eq curr t _ 0 i hi
    · intro j hj
      simpa using hbefore j hj
    · simpa using habort
  constructor
  · rw [go_to_writes_truthy v0 v1 t curr ht, hfa]
  · rw [go_to_ret_truthy v0 v1 t curr ht, hfa]

/-- Witness for the amended claim C1, the spec section 8 scenario: stepping
from 0 to 2 with threshold 1.5 on an observable that reads 2 from the
moment setpoint 1 is written stops having written exactly 0 through 1 and
returns 1; 2 and the later setpoints are never written. -/
theorem claim_c1_witness :
    writesOf (go_to 0 2 scenarioCurr (some (3/2))).1 =
      [0, 1/5, 2/5, 3/5, 4/5, 1] ∧
    (go_to 0 2 scenarioCurr (some (3/2))).2 = 1 := by
  have h := claim_c1_amended 0 2 (3/2) scenarioCurr 5 (by norm_num)
    (by norm_num [generate_1D_sweep_array, posCeil, marchFrom])
    (by intro j hj; interval_cases j <;> norm_num [scenarioCurr])
    (by norm_num [scenarioCurr])
  constructor
  · rw [h.1]
    norm_num [generate_1D_sweep_array, posCeil, marchFrom]
  · rw [h.2]
    norm_num [generate_1D_sweep_array, posCeil, marchFrom]

/-- Claim C2: the value _go_to returns is the last setpoint actually
written, it is an element of the generated sweep array, and when no
threshold is configured it equals the requested target exactly (the array
ends exactly at the target). -/
theorem claim_c2_return_value (v0 v1 : ℚ) (curr : ℕ → ℚ) (th : Option ℚ) :
    writesOf (go_to v0 v1 curr th).1 ≠ [] ∧
    (go_to v0 v1 curr th).2 =
      (writesOf (go_to v0 v1 curr th).1).getLastD v0 ∧
    (go_to v0 v1 curr th).2 ∈ generate_1D_sweep_array v0 v1 (1/5) ∧
    (th = none → (go_to v0 v1 curr th).2 = v1) := by
  have hstep : (0 : ℚ) < 1/5 := by norm_num
  have hne := generate_ne_nil v0 v1 (1/5) hstep
  rcases th with _ | t
  · rw [go_to_writes_falsy v0 v1 curr none (Or.inl rfl),
      go_to_ret_falsy v0 v1 curr none (Or.inl rfl)]
    exact ⟨hne, rfl, getLastD_mem _ _ hne,
      fun _ => generate_getLastD v0 v1 (1/5) v0 hstep⟩
  · by_cases ht : t = 0
    · subst ht
      rw [go_to_writes_falsy v0 v1 curr (some 0) (Or.inr rfl),
        go_to_ret_falsy v0 v1 curr (some 0) (Or.inr rfl)]
      exact ⟨hne, rfl, getLastD_mem _ _ hne, fun h => by simp at h⟩
    · rw [go_to_writes_truthy v0 v1 t curr ht,
        go_to_ret_truthy v0 v1 t curr ht]
      refine ⟨take_succ_ne_nil _ _ hne, rfl, ?_, fun h => by simp at h⟩
      exact List.take_subset _ _
        (getLastD_mem _ _ (take_succ_ne_nil _ _ hne))

/-- Witness for claim C2 at a concrete no-threshold invocation: stepping
from 0 to 2/5 the stepper returns the target 2/5 exactly. -/
theorem claim_c2_witness :
    (go_to 0 (2/5) constZero none).2 = 2/5 :=
  (claim_c2_return_value 0 (2/5) constZero none).2.2.2 rfl

/-- Claim C8: with the falsy threshold 0.0 the guard short-circuits before
the comparison, so every element of the generated array is written whatever
the observable reads (the readings stream is universally quantified), and
the trace shows one single observable read per setpoint, never a guard
read. -/
theorem claim_c8_zero_threshold (v0 v1 : ℚ) (curr : ℕ → ℚ) :
    writesOf (go_to v0 v1 curr (some 0)).1 =
      generate_1D_sweep_array v0 v1 (1/5) ∧
    (go_to v0 v1 curr (some 0)).1 =
      SEvent.sleep (1/2) ::
        blocks3 curr 0 (generate_1D_sweep_array v0 v1 (1/5)) ++
        [SEvent.sleep (1/2)] := by
  constructor
  · exact go_to_writes_falsy v0 v1 curr (some 0) (Or.inr rfl)
  · rw [go_to_falsy v0 v1 curr (some 0) (Or.inr rfl)]

/-- Claim C5, counterexample.  The claim asserts one read of the safety
observable per setpoint, between the write and the inter-step delay, with
the threshold check a pure comparison.  With a truthy threshold the code
reads the observable a second time inside the guard, after the delay, so
the produced event sequence differs from the claimed one: here with
threshold 5 (never exceeded, readings constantly 0) the actual trace has
four hardware events per setpoint, the claimed trace three. -/
theorem claim_c5_counterexample :
    (go_to 0 (1/5) constZero (some 5)).1 ≠
      c5_claimed_trace 0 (1/5) constZero (some 5) := by
  rw [go_to_truthy 0 (1/5) 5 constZero (by norm_num)]
  norm_num [c5_claimed_trace, c5_claimed_blocks, generate_1D_sweep_array,
    posCeil, marchFrom, firstAbortFrom, constZero, blocks4, step3, step4]

/-- Claim C5, amended: the event sequence of every _go_to invocation is a
settle delay, then, for each setpoint up to and including the first one
whose guard read exceeds a truthy threshold (all setpoints when the
threshold is falsy or never exceeded), a write, a read of the safety
observable, the inter-step delay, and, exactly when the threshold is truthy,
a second guard read used by the threshold check, and a final settle
delay. -/
theorem claim_c5_amended (v0 v1 : ℚ) (curr : ℕ → ℚ) (th : Option ℚ) :
    (go_to v0 v1 curr th).1 = c5_amended_trace v0 v1 curr th := by
  rcases th with _ | t
  · rw [go_to_falsy v0 v1 curr none (Or.inl rfl)]
    rfl
  · by_cases ht : t = 0
    · subst ht
      rw [go_to_falsy v0 v1 curr (some 0) (Or.inr rfl)]
      simp [c5_amended_trace]
    · rw [go_to_truthy v0 v1 t curr ht]
      simp [c5_amended_trace, if_neg ht]

/-- Claim C3: a gate_map call on nonempty target arrays performs, in this
order, the initialise_keithley call, the two initial gate-voltage reads, a
Position Stepper move of the top gate from its resting value to the first
element of xarray, the same for the back gate and yarray, and the sweep2d
call, whose result is handed back unchanged. -/
theorem claim_c3_ordering {H : Type} (sweep2dFn : Sweep2dArgs -> H)
    (x0 : ℚ) (xs : List ℚ) (inner_delay : ℚ) (y0 : ℚ) (ys : List ℚ)
    (outer_delay : ℚ) (components : List (String × Component))
    (init_tg init_bg : ℚ) (exp : Option ℕ) (label : Option String)
    (measure_retrace : Bool) :
    gate_map sweep2dFn (x0 :: xs) inner_delay (y0 :: ys) outer_delay
        components init_tg init_bg exp label measure_retrace =
      ([GMEvent.initialiseKeithley,
        GMEvent.readVolt "keithley.smua" init_tg,
        GMEvent.readVolt "keithley.smub" init_bg,
        GMEvent.positionStep "keithley.smua" init_tg x0
          ("sweeping top gate to " ++ toString init_tg ++ " V") none,
        GMEvent.positionStep "keithley.smub" init_bg y0
          ("sweeping back gate to " ++ toString init_bg ++ " V") none,
        GMEvent.callSweep2d (gate_map_sweep_args (x0 :: xs) inner_delay
          (y0 :: ys) outer_delay components exp label measure_retrace)],
       some (sweep2dFn (gate_map_sweep_args (x0 :: xs) inner_delay
         (y0 :: ys) outer_delay components exp label measure_retrace))) :=
  rfl

/-- Claim C4: the observables gate_map hands to sweep2d are exactly one
demods[0].sample observable per discovered lock-in followed by triton.T8,
triton.Bz, smua.curr and smub.curr; concurrent reads are requested and the
retrace flag, experiment and label are forwarded; the sweep2d call is the
last event of the invocation. -/
theorem claim_c4_observables {H : Type} (sweep2dFn : Sweep2dArgs -> H)
    (x0 : ℚ) (xs : List ℚ) (inner_delay : ℚ) (y0 : ℚ) (ys : List ℚ)
    (outer_delay : ℚ) (components : List (String × Component))
    (init_tg init_bg : ℚ) (exp : Option ℕ) (label : Option String)
    (measure_retrace : Bool) :
    ((gate_map sweep2dFn (x0 :: xs) inner_delay (y0 :: ys) outer_delay
        components init_tg init_bg exp label measure_retrace).1).getLast? =
      some (GMEvent.callSweep2d (gate_map_sweep_args (x0 :: xs) inner_delay
        (y0 :: ys) outer_delay components exp label measure_retrace)) ∧
    (gate_map_sweep_args (x0 :: xs) inner_delay (y0 :: ys) outer_delay
        components exp label measure_retrace).observables =
      (discover_lockins components).map Observable.demodSample ++
        [Observable.tritonT8, Observable.tritonBz,
         Observable.smuaCurr, Observable.smubCurr] ∧
    (gate_map_sweep_args (x0 :: xs) inner_delay (y0 :: ys) outer_delay
        components exp label measure_retrace).use_threads = true ∧
    (gate_map_sweep_args (x0 :: xs) inner_delay (y0 :: ys) outer_delay
        components exp label measure_retrace).measure_retrace =
      measure_retrace ∧
    (gate_map_sweep_args (x0 :: xs) inner_delay (y0 :: ys) outer_delay
        components exp label measure_retrace).exp = exp ∧
    (gate_map_sweep_args (x0 :: xs) inner_delay (y0 :: ys) outer_delay
        components exp label measure_retrace).measurement_name =
      "gate map " ++ labelToStr label :=
  ⟨rfl, rfl, rfl, rfl, rfl, rfl⟩

/-- Claim C6: when lock-in discovery on the station comes back empty, the
expectation of a first lock-in fails immediately, before a single hardware
node has been touched: initialise_lockin indexes lockins[0] as its very
first action, the raised exception surfaces with an empty hardware-action
trace.  The IndexError realises the ConfigurationError of the design-level
error taxonomy. -/
theorem claim_c6_no_lockin (components : List (String × Component))
    (freq : ℚ) (h : discover_lockins components = []) :
    initialise_lockin components freq = ([], some PyExc.indexError) := by
  unfold initialise_lockin
  rw [h]

/-- Witness for claim C6: a station holding a Keithley, a Triton and the
current_range parameter but no MFLI discovers no lock-in and
initialise_lockin errors with no action performed. -/
theorem claim_c6_witness :
    discover_lockins compsNoLockin = [] ∧
    initialise_lockin compsNoLockin 127 = ([], some PyExc.indexError) :=
  ⟨rfl, claim_c6_no_lockin compsNoLockin 127 rfl⟩

/-- Claim C9: discovery, identical in gate_map and initialise_lockin,
matches an attached component exactly when it is an Instrument whose class
equals zhinst.qcodes.mfli.MFLI on the nose: any component of another kind,
in particular an instrument of a proper subclass of MFLI or a non-Instrument
component, never enters the discovered list, while every exact MFLI
instrument does. -/
theorem claim_c9_exact_class (components : List (String × Component))
    (hnodup : (components.map Prod.fst).Nodup)
    (nm : String) (c : Component) (hmem : (nm, c) ∈ components) :
    (c ≠ Component.instrument PyClass.mfli →
      nm ∉ discover_lockins components) ∧
    (c = Component.instrument PyClass.mfli →
      nm ∈ discover_lockins components) := by
  constructor
  · intro hc hin
    rcases List.mem_map.mp hin with ⟨p, hpmem, hpfst⟩
    rcases List.mem_filter.mp hpmem with ⟨hpin, hplock⟩
    have hcls : p.2 = Component.instrument PyClass.mfli :=
      (is_lockin_true_iff p.2).mp hplock
    have hpeq : (nm, p.2) ∈ components := by
      rw [← hpfst]
      simpa using hpin
    exact hc (key_unique hnodup hmem hpeq ▸ hcls)
  · intro hc
    apply List.mem_map.mpr
    refine ⟨(nm, c), List.mem_filter.mpr ⟨hmem, ?_⟩, rfl⟩
    rw [hc]
    rfl

/-- Witness for claim C9: on a station holding an MFLI subclass instrument
named mf1, the current_range parameter, a Keithley and an exact MFLI named
mf2, discovery returns exactly mf2; mf1 is never added. -/
theorem claim_c9_witness :
    (compsMixed.map Prod.fst).Nodup ∧
    ("mf1", Component.instrument PyClass.mfliSubclass) ∈ compsMixed ∧
    Component.instrument PyClass.mfliSubclass ≠
      Component.instrument PyClass.mfli ∧
    "mf1" ∉ discover_lockins compsMixed ∧
    discover_lockins compsMixed = ["mf2"] := by
  refine ⟨?_, ?_, ?_, ?_, rfl⟩
  · simp [compsMixed]
  · simp [compsMixed]
  · simp
  · exact (claim_c9_exact_class compsMixed (by simp [compsMixed]) "mf1"
      (Component.instrument PyClass.mfliSubclass) (by simp [compsMixed])).1
      (by simp)

lemma imagPhaseSelect_not_printed {α : Type} (l : List α) :
    (imagPhaseSelect l).2 = false := by
  unfold imagPhaseSelect pyListGet
  cases l with
  | nil => rfl
  | cons a rest =>
    cases rest with
    | nil => rfl
    | cons b r => rfl

lemma componentSelect_not_printed {α : Type} (cpt : String) (l : List α) :
    (componentSelect cpt l).2 = false := by
  unfold componentSelect
  split_ifs with h1 h2
  · cases l with
    | nil => rfl
    | cons a rest => rfl
  · exact imagPhaseSelect_not_printed l
  · rfl

lemma plotCore1D_not_printed {α : Type} (cpt : String) (parsed : List α) :
    (plotCore1D cpt parsed).2 = false := by
  cases parsed with
  | nil => rfl
  | cons a rest =>
    show (match componentSelect cpt (a :: rest) with
      | (Except.error e, pr) => (Except.error e, pr)
      | (Except.ok _, pr) => (Except.ok PlotResult.pyNone, pr)).2 = false
    have h := componentSelect_not_printed cpt (a :: rest)
    rcases hcs : componentSelect cpt (a :: rest) with ⟨res, pr⟩
    rw [hcs] at h
    cases res with
    | error e => exact h
    | ok ds => exact h

lemma plotCore2D_not_printed {α : Type} (cpt : String) (parsed : List α) :
    (plotCore2D cpt parsed).2 = false := by
  cases parsed with
  | nil => rfl
  | cons a rest =>
    show (match componentSelect cpt (a :: rest) with
      | (Except.error e, pr) => (Except.error e, pr)
      | (Except.ok ds, pr) =>
        (Except.ok (PlotResult.handles ds.length
          (List.replicate ds.length none)), pr)).2 = false
    have h := componentSelect_not_printed cpt (a :: rest)
    rcases hcs : componentSelect cpt (a :: rest) with ⟨res, pr⟩
    rw [hcs] at h
    cases res with
    | error e => exact h
    | ok ds => exact h

lemma plot_dataset_1D_not_printed {α : Type} (cpt cpp : String)
    (parsed : List α) : (plot_dataset_1D cpt cpp parsed).2 = false := by
  unfold plot_dataset_1D
  split_ifs <;> first
    | rfl
    | exact plotCore1D_not_printed cpt parsed

lemma plot_dataset_2D_not_printed {α : Type} (cpt cpp : String)
    (parsed : List α) : (plot_dataset_2D cpt cpp parsed).2 = false := by
  unfold plot_dataset_2D
  split_ifs <;> first
    | rfl
    | exact plotCore2D_not_printed cpt parsed

lemma plotCore1D_ok {α : Type} (cpt : String) (parsed : List α)
    (r : PlotResult) (h : (plotCore1D cpt parsed).1 = Except.ok r) :
    r = PlotResult.pyNone := by
  cases parsed with
  | nil => exact absurd h (by simp [plotCore1D, pyListGet])
  | cons a rest =>
    rw [show plotCore1D cpt (a :: rest) =
      (match componentSelect cpt (a :: rest) with
        | (Except.error e, pr) => (Except.error e, pr)
        | (Except.ok _, pr) => (Except.ok PlotResult.pyNone, pr)) from rfl] at h
    rcases hcs : componentSelect cpt (a :: rest) with ⟨res, pr⟩
    rw [hcs] at h
    cases res with
    | error e => exact absurd h (by simp)
    | ok ds =>
      simp only [Except.ok.injEq] at h
      exact h.symm

lemma plotCore2D_ok {α : Type} (cpt : String) (parsed : List α)
    (r : PlotResult) (h : (plotCore2D cpt parsed).1 = Except.ok r) :
    ∃ n cbs, r = PlotResult.handles n cbs := by
  cases parsed with
  | nil => exact absurd h (by simp [plotCore2D, pyListGet])
  | cons a rest =>
    rw [show plotCore2D cpt (a :: rest) =
      (match componentSelect cpt (a :: rest) with
        | (Except.error e, pr) => (Except.error e, pr)
        | (Except.ok ds, pr) =>
          (Except.ok (PlotResult.handles ds.length
            (List.replicate ds.length none)), pr)) from rfl] at h
    rcases hcs : componentSelect cpt (a :: rest) with ⟨res, pr⟩
    rw [hcs] at h
    cases res with
    | error e => exact absurd h (by simp)
    | ok ds =>
      simp only [Except.ok.injEq] at h
      exact ⟨ds.length, List.replicate ds.length none, h.symm⟩

/-- Claim C7: the no-imaginary-part message of the imag and phase branches
of both plot functions can never be printed, because the guarded selection
dataset[1] raises IndexError, never the ValueError the handler catches, and
that IndexError propagates to the caller whenever the pre-parsed dataset has
no second component. -/
theorem claim_c7_unreachable_handler {α : Type} (cpt cpp : String)
    (parsed : List α) :
    (plot_dataset_1D cpt cpp parsed).2 = false ∧
    (plot_dataset_2D cpt cpp parsed).2 = false ∧
    ((cpt = "imag" ∨ cpt = "phase") → cpp ∈ valid_plot_phases →
      parsed.length ≤ 1 →
      (plot_dataset_1D cpt cpp parsed).1 = Except.error PyExc.indexError ∧
      (plot_dataset_2D cpt cpp parsed).1 = Except.error PyExc.indexError) := by
  refine ⟨plot_dataset_1D_not_printed cpt cpp parsed,
    plot_dataset_2D_not_printed cpt cpp parsed, ?_⟩
  intro hcpt hcpp hlen
  have hcpp2 : cpp = "radians" ∨ cpp = "degrees" := by
    simpa [valid_plot_phases] using hcpp
  rcases parsed with _ | ⟨a, _ | ⟨b, r⟩⟩
  · rcases hcpt with h | h <;> rcases hcpp2 with h2 | h2 <;>
      subst h <;> subst h2 <;> exact ⟨rfl, rfl⟩
  · rcases hcpt with h | h <;> rcases hcpp2 with h2 | h2 <;>
      subst h <;> subst h2 <;> exact ⟨rfl, rfl⟩
  · simp at hlen

/-- Witness for claim C7: plotting the imag component of a pre-parsed
dataset with a single real component lets the IndexError surface from both
plot functions and prints nothing. -/
theorem claim_c7_witness :
    ("imag" = "imag" ∨ "imag" = "phase") ∧
    "degrees" ∈ valid_plot_phases ∧
    ([()] : List Unit).length ≤ 1 ∧
    (plot_dataset_1D "imag" "degrees" ([()] : List Unit)).1 =
      Except.error PyExc.indexError ∧
    (plot_dataset_2D "imag" "degrees" ([()] : List Unit)).1 =
      Except.error PyExc.indexError ∧
    (plot_dataset_1D "imag" "degrees" ([()] : List Unit)).2 = false := by
  have h := claim_c7_unreachable_handler "imag" "degrees" ([()] : List Unit)
  have hmain := h.2.2 (Or.inl rfl) (by simp [valid_plot_phases]) (by simp)
  exact ⟨Or.inl rfl, by simp [valid_plot_phases], by simp,
    hmain.1, hmain.2, h.1⟩

/-- Claim C10: whenever plot_dataset_1D completes without raising it hands
back Python None (its body has no return statement), despite its docstring
promising axes and colorbar handles; plot_dataset_2D is the one returning
the axes and colorbars pair. -/
theorem claim_c10_return_none {α : Type} (cpt cpp : String)
    (parsed : List α) (r : PlotResult) :
    ((plot_dataset_1D cpt cpp parsed).1 = Except.ok r →
      r = PlotResult.pyNone) ∧
    ((plot_dataset_2D cpt cpp parsed).1 = Except.ok r →
      ∃ n cbs, r = PlotResult.handles n cbs) := by
  constructor
  · intro h
    unfold plot_dataset_1D at h
    split_ifs at h
    exact plotCore1D_ok cpt parsed r h
  · intro h
    unfold plot_dataset_2D at h
    split_ifs at h
    exact plotCore2D_ok cpt parsed r h

/-- Witness for claim C10: a completing run of plot_dataset_1D on a
two-component pre-parsed dataset gives back Python None while
plot_dataset_2D gives back the axes and colorbars pair. -/
theorem claim_c10_witness :
    (plot_dataset_1D "real_and_imag" "degrees" ([(), ()] : List Unit)).1 =
      Except.ok PlotResult.pyNone ∧
    (plot_dataset_2D "real_and_imag" "degrees" ([(), ()] : List Unit)).1 =
      Except.ok (PlotResult.handles 2 [none, none]) ∧
    PlotResult.pyNone = PlotResult.pyNone ∧
    (∃ n cbs, PlotResult.handles 2 ([none, none] : List (Option Unit)) =
      PlotResult.handles n cbs) := by
  refine ⟨rfl, rfl, ?_, ?_⟩
  · exact (claim_c10_return_none "real_and_imag" "degrees"
      ([(), ()] : List Unit) PlotResult.pyNone).1 rfl
  · exact (claim_c10_return_none "real_and_imag" "degrees"
      ([(), ()] : List Unit) (PlotResult.handles 2 [none, none])).2 rfl

end Mesoscopy
